import Mathlib

/-!
Shallow embedding of the catalog provisioning logic of the
business-template-marketplace repository:

* `src/monetization/stripe-integration.py` — `MonetizationEngine`
  (`create_all_stripe_products`, `_create_individual_template_product`,
  `_create_bundle_product`, `_create_vault_license_product`,
  `_create_subscription_product`, `_create_enterprise_product`,
  `_get_category_for_template`);
* `src/agents/template-orchestrator.py` — `TemplateOrchestrator._calculate_price_tier`.

The external Stripe SDK calls (`stripe.Product.create`, `stripe.Price.create`)
are modelled as an injected collaborator (`StripeApi`) whose calls may fail;
the engine runs in a monad `EngineM` that threads the behaviour of the code
(`Except`: a raised exception aborts the computation, exactly as an uncaught
Python exception would) together with a ghost trace of the external calls
performed, in order.
-/

/-- Values that appear in the Python `metadata` dictionaries (the code mixes
strings, ints and booleans). -/
inductive MetaVal where
  | str (s : String)
  | int (n : Int)
  | bool (b : Bool)
deriving DecidableEq, Repr

/-- Parameters of a `stripe.Product.create` call. -/
structure ProductParams where
  name : String
  description : String
  metadata : List (String × MetaVal)
deriving DecidableEq, Repr

/-- Parameters of a `stripe.Price.create` call. -/
structure PriceParams where
  product : String
  unit_amount : Int
  currency : String
  recurring : Option String
  metadata : List (String × MetaVal)
deriving DecidableEq, Repr

/-- The object returned by `stripe.Product.create` (only the `id` field is
used by the code). -/
structure ProductObj where
  id : String
deriving DecidableEq, Repr

/-- The object returned by `stripe.Price.create` (only the `id` field is used
by the code). -/
structure PriceObj where
  id : String
deriving DecidableEq, Repr

/-- One external call made by the engine, recorded in the ghost trace. -/
inductive StripeCall where
  | product (p : ProductParams)
  | price (p : PriceParams)
deriving DecidableEq, Repr

/-- The external collaborator: the behaviour of the `stripe` SDK as observed
by the engine.  Each call either returns an object or raises. -/
structure StripeApi where
  productCreate : ProductParams → Except String ProductObj
  priceCreate : PriceParams → Except String PriceObj

/-- Errors the engine can propagate: an exception raised by a Stripe call, or
a Python `KeyError` (from the `amounts[interval]` dictionary lookup in
`_create_subscription_product`). -/
inductive EngineError where
  | stripe (msg : String)
  | keyError (key : String)
deriving DecidableEq, Repr

/-- The engine monad: `Except` for uncaught exceptions (an error aborts the
whole computation, as in the Python code, and discards the partial result),
paired with a ghost trace of external calls that survives failure. -/
def EngineM (α : Type) : Type := List StripeCall → Except EngineError α × List StripeCall

protected def EngineM.pure {α : Type} (a : α) : EngineM α := fun s => (Except.ok a, s)

protected def EngineM.bind {α β : Type} (x : EngineM α) (f : α → EngineM β) : EngineM β :=
  fun s =>
    match x s with
    | (Except.ok a, s') => f a s'
    | (Except.error e, s') => (Except.error e, s')

instance : Monad EngineM where
  pure := EngineM.pure
  bind := EngineM.bind

/-- Perform a `stripe.Product.create` call: record the call in the trace and
either return the object or propagate the exception. -/
def callProduct (api : StripeApi) (p : ProductParams) : EngineM ProductObj := fun s =>
  (match api.productCreate p with
   | Except.ok v => Except.ok v
   | Except.error e => Except.error (EngineError.stripe e),
   s ++ [StripeCall.product p])

/-- Perform a `stripe.Price.create` call: record the call in the trace and
either return the object or propagate the exception. -/
def callPrice (api : StripeApi) (p : PriceParams) : EngineM PriceObj := fun s =>
  (match api.priceCreate p with
   | Except.ok v => Except.ok v
   | Except.error e => Except.error (EngineError.stripe e),
   s ++ [StripeCall.price p])

/-- Raise a Python `KeyError`. -/
def throwKeyError {α : Type} (key : String) : EngineM α := fun s =>
  (Except.error (EngineError.keyError key), s)

/-- The ordered list of Python loop iterations `for x in xs: out.append(f(x))`
inside the engine monad (an uncaught exception aborts the loop). -/
def mapME {α β : Type} (f : α → EngineM β) : List α → EngineM (List β)
  | [] => pure []
  | a :: as => do
    let b ← f a
    let bs ← mapME f as
    pure (b :: bs)

/-! ## Category mapper (`_get_category_for_template`, lines 324-343) -/

/-- The `category_mapping` dict of `_get_category_for_template`, in its
declared (insertion) order. -/
def category_mapping : List ((Int × Int) × String) :=
  [((1, 60), "Corporate & Enterprise"),
   ((61, 132), "Financial Services"),
   ((133, 192), "E-commerce & Retail"),
   ((193, 252), "Education & Training"),
   ((253, 272), "Healthcare & Wellness"),
   ((273, 312), "Community Impact"),
   ((313, 372), "Creative & Media"),
   ((373, 432), "Construction & Real Estate"),
   ((433, 467), "Technology & SaaS"),
   ((468, 487), "Research & Development")]

/-- The `for (start, end), category in category_mapping.items(): ...` loop:
return the category of the first range containing `id`, else the fallback. -/
def lookupCategory : List ((Int × Int) × String) → Int → String
  | [], _ => "Miscellaneous"
  | ((start, stop), category) :: rest, id =>
    if start ≤ id ∧ id ≤ stop then category else lookupCategory rest id

/-- `MonetizationEngine._get_category_for_template`. -/
def get_category_for_template (template_id : Int) : String :=
  lookupCategory category_mapping template_id

/-! ## Pricing formulas (factored from the bodies of the `_create_*` methods) -/

/-- `base_price = 25 + (template_id % 25)` (line 83).  Python `%` on a
positive modulus is the euclidean remainder, i.e. Lean's `Int.emod`. -/
def individual_base_price (template_id : Int) : Int := 25 + template_id % 25

/-- `bundle_price = 199 + (len(category) * 10)` (line 117). -/
def bundle_price (category : String) : Int := 199 + (category.length : Int) * 10

/-- `bundle_size = 48` (line 116). -/
def bundle_size : Int := 48

/-- The vault license amount: `997` (lines 162/173). -/
def vault_amount : Int := 997

/-- The `amounts = {'monthly': 47, 'annual': 470}` dict lookup of
`_create_subscription_product` (lines 181-182); `none` means `KeyError`. -/
def subscription_amounts (interval : String) : Option Int :=
  if interval = "monthly" then some 47
  else if interval = "annual" then some 470
  else none

/-- The `[('starter', 1997), ('growth', 2997), ('enterprise', 4997)]` list of
`_create_enterprise_product` (line 227). -/
def enterprise_price_tiers : List (String × Int) :=
  [("starter", 1997), ("growth", 2997), ("enterprise", 4997)]

/-! ## String helpers mirroring the Python formatting used in the calls -/

/-- Left-pad a string with `'0'` up to width `w` (Python zero padding). -/
def zfill (w : Nat) (s : String) : String :=
  if s.length < w then String.mk (List.replicate (w - s.length) '0') ++ s else s

/-- Python `f"{n:03d}"`. -/
def format03d (n : Int) : String :=
  if n < 0 then "-" ++ zfill 2 (toString (-n)) else zfill 3 (toString n)

/-! ## Call parameters, records and the `_create_*` methods -/

/-- The `stripe.Product.create(...)` arguments of
`_create_individual_template_product` (lines 85-93). -/
def individualProductParams (template_id : Int) : ProductParams :=
  { name := "Business Template #" ++ format03d template_id,
    description := "AI-powered business template with automated setup and monetization strategies",
    metadata := [("template_id", MetaVal.int template_id),
                 ("category", MetaVal.str (get_category_for_template template_id)),
                 ("type", MetaVal.str "individual_template")] }

/-- The `stripe.Price.create(...)` arguments of
`_create_individual_template_product` (lines 95-103). -/
def individualPriceParams (template_id : Int) (productId : String) : PriceParams :=
  { product := productId,
    unit_amount := individual_base_price template_id * 100,
    currency := "usd",
    recurring := none,
    metadata := [("template_id", MetaVal.int template_id),
                 ("pricing_tier", MetaVal.str "individual")] }

/-- The dictionary returned by `_create_individual_template_product`
(lines 105-111). -/
structure IndividualRecord where
  product_id : String
  price_id : String
  template_id : Int
  amount : Int
  stripe_url : String
deriving DecidableEq, Repr

/-- `MonetizationEngine._create_individual_template_product` (lines 79-111). -/
def create_individual_template_product (api : StripeApi) (template_id : Int) :
    EngineM IndividualRecord := do
  let product ← callProduct api (individualProductParams template_id)
  let price ← callPrice api (individualPriceParams template_id product.id)
  pure { product_id := product.id,
         price_id := price.id,
         template_id := template_id,
         amount := individual_base_price template_id,
         stripe_url := "https://buy.stripe.com/test_" ++ price.id }

/-- The `stripe.Product.create(...)` arguments of `_create_bundle_product`
(lines 119-127). -/
def bundleProductParams (category : String) : ProductParams :=
  { name := category ++ " Template Bundle",
    description := "Complete " ++ category.toLower ++
      " business template collection with " ++ toString bundle_size ++ "+ templates",
    metadata := [("category", MetaVal.str category),
                 ("template_count", MetaVal.int bundle_size),
                 ("type", MetaVal.str "bundle")] }

/-- The `stripe.Price.create(...)` arguments of `_create_bundle_product`
(lines 129-137). -/
def bundlePriceParams (category : String) (productId : String) : PriceParams :=
  { product := productId,
    unit_amount := bundle_price category * 100,
    currency := "usd",
    recurring := none,
    metadata := [("category", MetaVal.str category),
                 ("pricing_tier", MetaVal.str "bundle")] }

/-- The dictionary returned by `_create_bundle_product` (lines 139-145). -/
structure BundleRecord where
  product_id : String
  price_id : String
  category : String
  amount : Int
  template_count : Int
deriving DecidableEq, Repr

/-- `MonetizationEngine._create_bundle_product` (lines 113-145). -/
def create_bundle_product (api : StripeApi) (category : String) :
    EngineM BundleRecord := do
  let product ← callProduct api (bundleProductParams category)
  let price ← callPrice api (bundlePriceParams category product.id)
  pure { product_id := product.id,
         price_id := price.id,
         category := category,
         amount := bundle_price category,
         template_count := bundle_size }

/-- The `stripe.Product.create(...)` arguments of
`_create_vault_license_product` (lines 150-158). -/
def vaultProductParams : ProductParams :=
  { name := "Template Vault License - All 487 Templates",
    description := "Complete access to all 487 business templates + lifetime updates + exclusive consulting sessions",
    metadata := [("template_count", MetaVal.int 487),
                 ("type", MetaVal.str "vault_license"),
                 ("includes", MetaVal.str "all_templates,lifetime_updates,consulting")] }

/-- The `stripe.Price.create(...)` arguments of `_create_vault_license_product`
(lines 160-168): `unit_amount=99700`. -/
def vaultPriceParams (productId : String) : PriceParams :=
  { product := productId,
    unit_amount := 99700,
    currency := "usd",
    recurring := none,
    metadata := [("pricing_tier", MetaVal.str "vault"),
                 ("value_proposition", MetaVal.str "complete_access")] }

/-- The dictionary returned by `_create_vault_license_product`
(lines 170-176). -/
structure VaultRecord where
  product_id : String
  price_id : String
  amount : Int
  template_count : Int
  includes : List String
deriving DecidableEq, Repr

/-- `MonetizationEngine._create_vault_license_product` (lines 147-176). -/
def create_vault_license_product (api : StripeApi) : EngineM VaultRecord := do
  let product ← callProduct api vaultProductParams
  let price ← callPrice api (vaultPriceParams product.id)
  pure { product_id := product.id,
         price_id := price.id,
         amount := vault_amount,
         template_count := 487,
         includes := ["all_templates", "lifetime_updates", "consulting_sessions"] }

/-- The `stripe.Product.create(...)` arguments of
`_create_subscription_product` (lines 184-192); Python
`interval.title()` capitalises the (single, lowercase) word. -/
def subscriptionProductParams (interval : String) : ProductParams :=
  { name := "Template Studio " ++ interval.capitalize ++ " Subscription",
    description := "10 new AI-generated templates monthly + template customization tools + priority support",
    metadata := [("type", MetaVal.str "subscription"),
                 ("interval", MetaVal.str interval),
                 ("templates_per_month", MetaVal.int 10)] }

/-- The `stripe.Price.create(...)` arguments of `_create_subscription_product`
(lines 194-203). -/
def subscriptionPriceParams (interval : String) (amount : Int) (productId : String) :
    PriceParams :=
  { product := productId,
    unit_amount := amount * 100,
    currency := "usd",
    recurring := some (if interval = "monthly" then "month" else "year"),
    metadata := [("pricing_tier", MetaVal.str "subscription"),
                 ("templates_monthly", MetaVal.int 10)] }

/-- The dictionary returned by `_create_subscription_product`
(lines 205-211). -/
structure SubscriptionRecord where
  product_id : String
  price_id : String
  interval : String
  amount : Int
  templates_per_month : Int
deriving DecidableEq, Repr

/-- `MonetizationEngine._create_subscription_product` (lines 178-211). -/
def create_subscription_product (api : StripeApi) (interval : String) :
    EngineM SubscriptionRecord :=
  match subscription_amounts interval with
  | none => throwKeyError interval
  | some amount => do
    let product ← callProduct api (subscriptionProductParams interval)
    let price ← callPrice api (subscriptionPriceParams interval amount product.id)
    pure { product_id := product.id,
           price_id := price.id,
           interval := interval,
           amount := amount,
           templates_per_month := 10 }

/-- The `stripe.Product.create(...)` arguments of `_create_enterprise_product`
(lines 216-223). -/
def enterpriseProductParams : ProductParams :=
  { name := "Enterprise Template Development + Consulting",
    description := "Custom template creation + white-label licensing + dedicated support + implementation consulting",
    metadata := [("type", MetaVal.str "enterprise"),
                 ("includes", MetaVal.str "custom_templates,white_label,consulting,implementation")] }

/-- The `stripe.Price.create(...)` arguments inside the enterprise tier loop
(lines 228-236). -/
def enterprisePriceParams (tier : String) (amount : Int) (productId : String) :
    PriceParams :=
  { product := productId,
    unit_amount := amount * 100,
    currency := "usd",
    recurring := none,
    metadata := [("pricing_tier", MetaVal.str ("enterprise_" ++ tier)),
                 ("includes_consulting", MetaVal.bool true)] }

/-- One element of the `prices` list built by `_create_enterprise_product`
(lines 237-241). -/
structure EnterprisePriceRec where
  tier : String
  price_id : String
  amount : Int
deriving DecidableEq, Repr

/-- The dictionary returned by `_create_enterprise_product` (lines 243-247). -/
structure EnterpriseRecord where
  product_id : String
  pricing_tiers : List EnterprisePriceRec
  type : String
deriving DecidableEq, Repr

/-- One iteration of the `for tier, amount in [...]` loop of
`_create_enterprise_product` (lines 227-241). -/
def enterprisePriceStep (api : StripeApi) (productId : String)
    (ta : String × Int) : EngineM EnterprisePriceRec := do
  let price ← callPrice api (enterprisePriceParams ta.1 ta.2 productId)
  pure { tier := ta.1, price_id := price.id, amount := ta.2 }

/-- `MonetizationEngine._create_enterprise_product` (lines 213-247). -/
def create_enterprise_product (api : StripeApi) : EngineM EnterpriseRecord := do
  let product ← callProduct api enterpriseProductParams
  let prices ← mapME (enterprisePriceStep api product.id) enterprise_price_tiers
  pure { product_id := product.id,
         pricing_tiers := prices,
         type := "enterprise" }

/-! ## `create_all_stripe_products` (lines 36-77) -/

/-- The `categories` list of `create_all_stripe_products` (lines 53-58), in
declared order. -/
def categories : List String :=
  ["Corporate & Enterprise", "Financial Services", "E-commerce & Retail",
   "Education & Training", "Healthcare & Wellness", "Community Impact",
   "Creative & Media", "Construction & Real Estate", "Technology & SaaS",
   "Research & Development"]

/-- The iteration space of the individual-template loop:
`range(1, 488)` (line 48). -/
def template_ids : List Int := (List.range' 1 487).map Int.ofNat

/-- The `results` dictionary of `create_all_stripe_products` (lines 39-45). -/
structure Results where
  individual_templates : List IndividualRecord
  bundles : List BundleRecord
  subscriptions : List SubscriptionRecord
  enterprise : List EnterpriseRecord
  vault_license : Option VaultRecord
deriving Repr

/-- `MonetizationEngine.create_all_stripe_products` (lines 36-77). -/
def create_all_stripe_products (api : StripeApi) : EngineM Results := do
  let individual ← mapME (create_individual_template_product api) template_ids
  let bundles ← mapME (create_bundle_product api) categories
  let vault ← create_vault_license_product api
  let monthly ← create_subscription_product api "monthly"
  let annual ← create_subscription_product api "annual"
  let ent ← create_enterprise_product api
  pure { individual_templates := individual,
         bundles := bundles,
         subscriptions := [monthly, annual],
         enterprise := [ent],
         vault_license := some vault }

/-! ## Orchestrator pricing (`_calculate_price_tier`, lines 74-84 of
`src/agents/template-orchestrator.py`) -/

/-- One value of the orchestrator's `pricing_tiers` dict. -/
structure PriceTierEntry where
  individual : Int
  bundle : Int
  enterprise : Int
deriving DecidableEq, Repr

/-- `TemplateOrchestrator._calculate_price_tier`: a `dict.get` on a literal
dict, keyed by `category.lower()`, defaulting to the `"default"` entry. -/
def calculate_price_tier (category : String) : PriceTierEntry :=
  if category.toLower = "fintech" then ⟨49, 299, 1997⟩
  else if category.toLower = "saas" then ⟨39, 249, 1497⟩
  else if category.toLower = "ecommerce" then ⟨29, 199, 997⟩
  else if category.toLower = "consulting" then ⟨59, 399, 2497⟩
  else if category.toLower = "default" then ⟨25, 149, 897⟩
  else ⟨25, 149, 897⟩

/-! ## Ghost-trace observations -/

/-- The value of the `"type"` key in a metadata dictionary (the code tags
every product with its tier there). -/
def metaType : List (String × MetaVal) → String
  | [] => ""
  | (k, MetaVal.str v) :: rest => if k = "type" then v else metaType rest
  | _ :: rest => metaType rest

/-- A human-readable kind for each external call: product creations are
tagged with their tier, price creations are all alike. -/
def callKind : StripeCall → String
  | StripeCall.product p => "product:" ++ metaType p.metadata
  | StripeCall.price _ => "price"

/-! ## Unfolding lemmas for the engine monad -/

@[simp] lemma EngineM.bind_apply {α β : Type} (x : EngineM α) (f : α → EngineM β)
    (s : List StripeCall) :
    (x >>= f) s =
      match x s with
      | (Except.ok a, s') => f a s'
      | (Except.error e, s') => (Except.error e, s') := rfl

@[simp] lemma EngineM.pure_apply {α : Type} (a : α) (s : List StripeCall) :
    (pure a : EngineM α) s = (Except.ok a, s) := rfl

lemma EngineM.bind_ok {α β : Type} {x : EngineM α} {f : α → EngineM β}
    {s s' : List StripeCall} {a : α} (h : x s = (Except.ok a, s')) :
    (x >>= f) s = f a s' := by
  rw [EngineM.bind_apply, h]

lemma EngineM.bind_error {α β : Type} {x : EngineM α} {f : α → EngineM β}
    {s s' : List StripeCall} {e : EngineError} (h : x s = (Except.error e, s')) :
    (x >>= f) s = (Except.error e, s') := by
  rw [EngineM.bind_apply, h]

lemma callProduct_ok {api : StripeApi} {p : ProductParams} {v : ProductObj}
    (h : api.productCreate p = Except.ok v) (s : List StripeCall) :
    callProduct api p s = (Except.ok v, s ++ [StripeCall.product p]) := by
  simp [callProduct, h]

lemma callPrice_ok {api : StripeApi} {p : PriceParams} {v : PriceObj}
    (h : api.priceCreate p = Except.ok v) (s : List StripeCall) :
    callPrice api p s = (Except.ok v, s ++ [StripeCall.price p]) := by
  simp [callPrice, h]

/-- If every iteration of a loop succeeds (growing the trace by calls with
known kinds and producing a record whose observations `g1`, `g2` match `h1`,
`h2` of the input), then the whole loop succeeds, in declaration order. -/
lemma mapME_ok_map {α β γ δ : Type} (f : α → EngineM β)
    (g1 : β → γ) (h1 : α → γ) (g2 : β → δ) (h2 : α → δ)
    (tags : α → List String) :
    ∀ l : List α,
      (∀ a ∈ l, ∀ s, ∃ b t, f a s = (Except.ok b, s ++ t) ∧
        g1 b = h1 a ∧ g2 b = h2 a ∧ t.map callKind = tags a) →
      ∀ s, ∃ bs t, mapME f l s = (Except.ok bs, s ++ t) ∧
        bs.map g1 = l.map h1 ∧ bs.map g2 = l.map h2 ∧
        t.map callKind = (l.map tags).flatten := by
  intro l
  induction l with
  | nil =>
    intro _ s
    exact ⟨[], [], by simp [mapME], rfl, rfl, rfl⟩
  | cons a as ih =>
    intro H s
    obtain ⟨b, t1, hfa, hg1, hg2, ht1⟩ := H a (by simp) s
    obtain ⟨bs, t2, hml, hmap1, hmap2, ht2⟩ :=
      ih (fun x hx => H x (by simp [hx])) (s ++ t1)
    refine ⟨b :: bs, t1 ++ t2, ?_, ?_, ?_, ?_⟩
    · show (f a >>= fun b => mapME f as >>= fun bs => pure (b :: bs)) s = _
      rw [EngineM.bind_ok hfa, EngineM.bind_ok hml, EngineM.pure_apply,
        List.append_assoc]
    · simp [hg1, hmap1]
    · simp [hg2, hmap2]
    · simp [ht1, ht2]

/-- If every iteration before some designated element succeeds and the
designated element raises, the whole loop propagates exactly that error. -/
lemma mapME_error {α β : Type} (f : α → EngineM β) (e : EngineError) :
    ∀ (l1 : List α) (a : α) (l2 : List α),
      (∀ x ∈ l1, ∀ s, ∃ b t, f x s = (Except.ok b, t)) →
      (∀ s, ∃ t, f a s = (Except.error e, t)) →
      ∀ s, ∃ t, mapME f (l1 ++ a :: l2) s = (Except.error e, t) := by
  intro l1
  induction l1 with
  | nil =>
    intro a l2 _ hfail s
    obtain ⟨t, ht⟩ := hfail s
    refine ⟨t, ?_⟩
    show (f a >>= fun b => mapME f l2 >>= fun bs => pure (b :: bs)) s = _
    rw [EngineM.bind_error ht]
  | cons x l1 ih =>
    intro a l2 hok hfail s
    obtain ⟨b, t1, hfx⟩ := hok x (by simp) s
    obtain ⟨t, ht⟩ := ih a l2 (fun y hy => hok y (by simp [hy])) hfail t1
    refine ⟨t, ?_⟩
    show (f x >>= fun b => mapME f (l1 ++ a :: l2) >>= fun bs => pure (b :: bs)) s = _
    rw [EngineM.bind_ok hfx, EngineM.bind_error ht]

/-! ## Per-entry success lemmas (all under the hypothesis that the external
collaborator succeeds on every call) -/

lemma create_individual_ok (api : StripeApi)
    (hp : ∀ p, ∃ v, api.productCreate p = Except.ok v)
    (hq : ∀ p, ∃ v, api.priceCreate p = Except.ok v)
    (id : Int) (s : List StripeCall) :
    ∃ b t, create_individual_template_product api id s = (Except.ok b, s ++ t) ∧
      b.template_id = id ∧ b.amount = individual_base_price id ∧
      t.map callKind = ["product:individual_template", "price"] := by
  obtain ⟨v, hv⟩ := hp (individualProductParams id)
  obtain ⟨w, hw⟩ := hq (individualPriceParams id v.id)
  refine ⟨{ product_id := v.id, price_id := w.id, template_id := id,
            amount := individual_base_price id,
            stripe_url := "https://buy.stripe.com/test_" ++ w.id },
          [StripeCall.product (individualProductParams id),
           StripeCall.price (individualPriceParams id v.id)], ?_, rfl, rfl, ?_⟩
  · simp [create_individual_template_product, callProduct, callPrice, hv, hw]
  · rfl

lemma create_bundle_ok (api : StripeApi)
    (hp : ∀ p, ∃ v, api.productCreate p = Except.ok v)
    (hq : ∀ p, ∃ v, api.priceCreate p = Except.ok v)
    (c : String) (s : List StripeCall) :
    ∃ b t, create_bundle_product api c s = (Except.ok b, s ++ t) ∧
      b.category = c ∧ b.amount = bundle_price c ∧
      t.map callKind = ["product:bundle", "price"] := by
  obtain ⟨v, hv⟩ := hp (bundleProductParams c)
  obtain ⟨w, hw⟩ := hq (bundlePriceParams c v.id)
  refine ⟨{ product_id := v.id, price_id := w.id, category := c,
            amount := bundle_price c, template_count := bundle_size },
          [StripeCall.product (bundleProductParams c),
           StripeCall.price (bundlePriceParams c v.id)], ?_, rfl, rfl, ?_⟩
  · simp [create_bundle_product, callProduct, callPrice, hv, hw]
  · rfl

lemma create_vault_ok (api : StripeApi)
    (hp : ∀ p, ∃ v, api.productCreate p = Except.ok v)
    (hq : ∀ p, ∃ v, api.priceCreate p = Except.ok v)
    (s : List StripeCall) :
    ∃ b t, create_vault_license_product api s = (Except.ok b, s ++ t) ∧
      b.amount = vault_amount ∧
      t.map callKind = ["product:vault_license", "price"] := by
  obtain ⟨v, hv⟩ := hp vaultProductParams
  obtain ⟨w, hw⟩ := hq (vaultPriceParams v.id)
  refine ⟨{ product_id := v.id, price_id := w.id, amount := vault_amount,
            template_count := 487,
            includes := ["all_templates", "lifetime_updates", "consulting_sessions"] },
          [StripeCall.product vaultProductParams,
           StripeCall.price (vaultPriceParams v.id)], ?_, rfl, ?_⟩
  · simp [create_vault_license_product, callProduct, callPrice, hv, hw]
  · rfl

lemma create_subscription_ok (api : StripeApi)
    (hp : ∀ p, ∃ v, api.productCreate p = Except.ok v)
    (hq : ∀ p, ∃ v, api.priceCreate p = Except.ok v)
    (interval : String) (amount : Int)
    (ha : subscription_amounts interval = some amount) (s : List StripeCall) :
    ∃ b t, create_subscription_product api interval s = (Except.ok b, s ++ t) ∧
      b.interval = interval ∧ b.amount = amount ∧
      t.map callKind = ["product:subscription", "price"] := by
  obtain ⟨v, hv⟩ := hp (subscriptionProductParams interval)
  obtain ⟨w, hw⟩ := hq (subscriptionPriceParams interval amount v.id)
  refine ⟨{ product_id := v.id, price_id := w.id, interval := interval,
            amount := amount, templates_per_month := 10 },
          [StripeCall.product (subscriptionProductParams interval),
           StripeCall.price (subscriptionPriceParams interval amount v.id)],
          ?_, rfl, rfl, ?_⟩
  · simp [create_subscription_product, ha, callProduct, callPrice, hv, hw]
  · rfl

lemma create_enterprise_ok (api : StripeApi)
    (hp : ∀ p, ∃ v, api.productCreate p = Except.ok v)
    (hq : ∀ p, ∃ v, api.priceCreate p = Except.ok v)
    (s : List StripeCall) :
    ∃ b t, create_enterprise_product api s = (Except.ok b, s ++ t) ∧
      b.pricing_tiers.map EnterprisePriceRec.amount = enterprise_price_tiers.map Prod.snd ∧
      t.map callKind = ["product:enterprise", "price", "price", "price"] := by
  obtain ⟨v, hv⟩ := hp enterpriseProductParams
  have Hinner : ∀ ta ∈ enterprise_price_tiers, ∀ s', ∃ b t,
      enterprisePriceStep api v.id ta s' = (Except.ok b, s' ++ t) ∧
      EnterprisePriceRec.amount b = Prod.snd ta ∧
      EnterprisePriceRec.tier b = Prod.fst ta ∧ t.map callKind = ["price"] := by
    intro ta _ s'
    obtain ⟨w, hw⟩ := hq (enterprisePriceParams ta.1 ta.2 v.id)
    exact ⟨{ tier := ta.1, price_id := w.id, amount := ta.2 },
           [StripeCall.price (enterprisePriceParams ta.1 ta.2 v.id)],
           by simp [enterprisePriceStep, callPrice, hw], rfl, rfl, rfl⟩
  obtain ⟨prices, t2, hmap, hamounts, _, ht2⟩ :=
    mapME_ok_map _ EnterprisePriceRec.amount Prod.snd EnterprisePriceRec.tier Prod.fst
      (fun _ => ["price"]) enterprise_price_tiers Hinner
      (s ++ [StripeCall.product enterpriseProductParams])
  refine ⟨{ product_id := v.id, pricing_tiers := prices, type := "enterprise" },
          [StripeCall.product enterpriseProductParams] ++ t2, ?_, hamounts, ?_⟩
  · have h1 : create_enterprise_product api s
        = (mapME (enterprisePriceStep api v.id) enterprise_price_tiers >>= fun prices =>
            (pure { product_id := v.id, pricing_tiers := prices, type := "enterprise" } :
              EngineM EnterpriseRecord))
          (s ++ [StripeCall.product enterpriseProductParams]) := by
      simp only [create_enterprise_product]
      rw [EngineM.bind_ok (callProduct_ok hv s)]
    rw [h1, EngineM.bind_ok hmap]
    simp [List.append_assoc]
  · rw [List.map_append, ht2]
    rfl

/-- Master specification of a fully successful `create_all_stripe_products`
run: the result lists have exactly the declared entries, in declared order,
with the declared amounts, and the trace of external calls has exactly the
declared kinds. -/
lemma create_all_ok_spec (api : StripeApi)
    (hp : ∀ p, ∃ v, api.productCreate p = Except.ok v)
    (hq : ∀ p, ∃ v, api.priceCreate p = Except.ok v)
    (s : List StripeCall) :
    ∃ r t, create_all_stripe_products api s = (Except.ok r, s ++ t) ∧
      r.individual_templates.map IndividualRecord.template_id = template_ids ∧
      r.individual_templates.map IndividualRecord.amount
        = template_ids.map individual_base_price ∧
      r.bundles.map BundleRecord.category = categories ∧
      r.bundles.map BundleRecord.amount = categories.map bundle_price ∧
      r.subscriptions.map SubscriptionRecord.interval = ["monthly", "annual"] ∧
      r.subscriptions.map SubscriptionRecord.amount = [47, 470] ∧
      r.enterprise.length = 1 ∧
      (∃ vr, r.vault_license = some vr ∧ vr.amount = vault_amount) ∧
      t.map callKind =
        (template_ids.map fun _ => ["product:individual_template", "price"]).flatten ++
        (categories.map fun _ => ["product:bundle", "price"]).flatten ++
        ["product:vault_license", "price"] ++
        ["product:subscription", "price"] ++ ["product:subscription", "price"] ++
        ["product:enterprise", "price", "price", "price"] := by
  have Hind : ∀ id ∈ template_ids, ∀ s', ∃ b t,
      create_individual_template_product api id s' = (Except.ok b, s' ++ t) ∧
      IndividualRecord.template_id b = id ∧
      IndividualRecord.amount b = individual_base_price id ∧
      t.map callKind = ["product:individual_template", "price"] := by
    intro id _ s'
    exact create_individual_ok api hp hq id s'
  obtain ⟨ind, t1, e1, k1a, k1b, k1t⟩ :=
    mapME_ok_map _ IndividualRecord.template_id (fun id => id)
      IndividualRecord.amount individual_base_price
      (fun _ => ["product:individual_template", "price"]) template_ids Hind s
  have Hbnd : ∀ c ∈ categories, ∀ s', ∃ b t,
      create_bundle_product api c s' = (Except.ok b, s' ++ t) ∧
      BundleRecord.category b = c ∧
      BundleRecord.amount b = bundle_price c ∧
      t.map callKind = ["product:bundle", "price"] := by
    intro c _ s'
    exact create_bundle_ok api hp hq c s'
  obtain ⟨bnd, t2, e2, k2a, k2b, k2t⟩ :=
    mapME_ok_map _ BundleRecord.category (fun c => c)
      BundleRecord.amount bundle_price
      (fun _ => ["product:bundle", "price"]) categories Hbnd (s ++ t1)
  obtain ⟨vr, t3, e3, k3a, k3t⟩ := create_vault_ok api hp hq ((s ++ t1) ++ t2)
  obtain ⟨ms, t4, e4, k4i, k4a, k4t⟩ :=
    create_subscription_ok api hp hq "monthly" 47 rfl (((s ++ t1) ++ t2) ++ t3)
  obtain ⟨ans, t5, e5, k5i, k5a, k5t⟩ :=
    create_subscription_ok api hp hq "annual" 470 (by simp [subscription_amounts])
      ((((s ++ t1) ++ t2) ++ t3) ++ t4)
  obtain ⟨er, t6, e6, k6a, k6t⟩ :=
    create_enterprise_ok api hp hq (((((s ++ t1) ++ t2) ++ t3) ++ t4) ++ t5)
  refine ⟨{ individual_templates := ind, bundles := bnd, subscriptions := [ms, ans],
            enterprise := [er], vault_license := some vr },
          t1 ++ (t2 ++ (t3 ++ (t4 ++ (t5 ++ t6)))),
          ?_, ?_, k1b, ?_, k2b, ?_, ?_, rfl, ⟨vr, rfl, k3a⟩, ?_⟩
  · simp only [create_all_stripe_products, EngineM.bind_apply, EngineM.pure_apply,
      e1, e2, e3, e4, e5, e6]
    simp [List.append_assoc]
  · simpa using k1a
  · simpa using k2a
  · simp [k4i, k5i]
  · simp [k4a, k5a]
  · simp [k1t, k2t, k3t, k4t, k5t, k6t, List.append_assoc]

/-! ## Category-mapper lemmas -/

lemma lookupCategory_eq_find (l : List ((Int × Int) × String)) (id : Int) :
    lookupCategory l id =
      ((l.find? fun r => decide (r.1.1 ≤ id ∧ id ≤ r.1.2)).map Prod.snd).getD
        "Miscellaneous" := by
  induction l with
  | nil => rfl
  | cons a l ih =>
    obtain ⟨⟨lo, hi⟩, cat⟩ := a
    by_cases h : lo ≤ id ∧ id ≤ hi
    · rw [lookupCategory, if_pos h, List.find?_cons_of_pos _ (by simpa using h)]
      rfl
    · rw [lookupCategory, if_neg h, List.find?_cons_of_neg _ (by simpa using h), ih]

lemma lookupCategory_mem (l : List ((Int × Int) × String)) (id : Int) :
    lookupCategory l id ∈ "Miscellaneous" :: l.map Prod.snd := by
  induction l with
  | nil => simp [lookupCategory]
  | cons a l ih =>
    obtain ⟨⟨lo, hi⟩, cat⟩ := a
    by_cases h : lo ≤ id ∧ id ≤ hi
    · simp [lookupCategory, h]
    · rw [lookupCategory, if_neg h]
      simp only [List.map_cons, List.mem_cons] at ih ⊢
      tauto

/-- Claim C1: for every integer id, the category lookup scans the configured
ranges in declared order and returns the category of the first range with
`lower ≤ id ≤ upper` (expressed via `List.find?`), with fallback
"Miscellaneous" when no range matches; in particular id 61 maps to
"Financial Services", id 5 to "Corporate & Enterprise" and id 500 to
"Miscellaneous". -/
theorem category_lookup_first_match_spec :
    (∀ id : Int, get_category_for_template id =
      (((category_mapping.find? fun r => decide (r.1.1 ≤ id ∧ id ≤ r.1.2)).map
        Prod.snd).getD "Miscellaneous")) ∧
    get_category_for_template 61 = "Financial Services" ∧
    get_category_for_template 5 = "Corporate & Enterprise" ∧
    get_category_for_template 500 = "Miscellaneous" :=
  ⟨fun id => lookupCategory_eq_find category_mapping id, by decide, by decide, by decide⟩

/-- Claim C9: the category lookup is a pure total Lean function on all of
`Int` (hence never fails and has no effects), and its result is always a
string: one of the ten configured category names or the fallback
"Miscellaneous". -/
theorem category_lookup_total (id : Int) :
    get_category_for_template id ∈ "Miscellaneous" :: category_mapping.map Prod.snd :=
  lookupCategory_mem category_mapping id

lemma category_ranges_pairwise_disjoint :
    List.Pairwise (fun a b => a.1.2 < b.1.1 ∨ b.1.2 < a.1.1) category_mapping := by
  decide

set_option maxRecDepth 8000 in
lemma category_ranges_cover_nat :
    ∀ n : Nat, n < 487 → ∃ i : Fin category_mapping.length,
      ((category_mapping.get i).1.1 ≤ (n : Int) + 1 ∧
       (n : Int) + 1 ≤ (category_mapping.get i).1.2) ∧
      ∀ j : Fin category_mapping.length,
        ((category_mapping.get j).1.1 ≤ (n : Int) + 1 ∧
         (n : Int) + 1 ≤ (category_mapping.get j).1.2) → j = i := by decide

set_option maxHeartbeats 1600000 in
/-- Claim C4: the configured ranges are pairwise non-overlapping; every id in
[1, 487] is matched by exactly one range; and the fallback "Miscellaneous"
is returned exactly for the ids outside [1, 487]. -/
theorem category_ranges_partition :
    List.Pairwise (fun a b => a.1.2 < b.1.1 ∨ b.1.2 < a.1.1) category_mapping ∧
    (∀ id : Int, 1 ≤ id → id ≤ 487 →
      ∃! i : Fin category_mapping.length,
        (category_mapping.get i).1.1 ≤ id ∧ id ≤ (category_mapping.get i).1.2) ∧
    (∀ id : Int, get_category_for_template id = "Miscellaneous" ↔ id < 1 ∨ 487 < id) := by
  refine ⟨category_ranges_pairwise_disjoint, ?_, ?_⟩
  · intro id h1 h2
    obtain ⟨n, rfl⟩ : ∃ n : Nat, id = (n : Int) + 1 := ⟨(id - 1).toNat, by omega⟩
    exact category_ranges_cover_nat n (by omega)
  · intro id
    simp only [get_category_for_template, category_mapping, lookupCategory]
    split_ifs with h1 h2 h3 h4 h5 h6 h7 h8 h9 h10
    all_goals first
      | exact iff_of_false (by decide) (by omega)
      | exact iff_of_true rfl (by omega)

/-- Witness for C4 at the concrete id 250: it lies in [1, 487] and exactly
one configured range contains it. -/
theorem category_ranges_partition_witness :
    (1 : Int) ≤ 250 ∧ (250 : Int) ≤ 487 ∧
    ∃! i : Fin category_mapping.length,
      (category_mapping.get i).1.1 ≤ (250 : Int) ∧
      (250 : Int) ≤ (category_mapping.get i).1.2 :=
  ⟨by decide, by decide, category_ranges_partition.2.1 250 (by decide) (by decide)⟩

/-! ## Pricing claims -/

/-- Claim C10: for every integer template id, the individual price
`25 + (template_id mod 25)` lies in [25, 49]; the value 50 suggested by the
code comment is never attained. -/
theorem individual_price_bounds (template_id : Int) :
    25 ≤ individual_base_price template_id ∧
    individual_base_price template_id ≤ 49 ∧
    individual_base_price template_id ≠ 50 := by
  have h1 : 0 ≤ template_id % 25 := Int.emod_nonneg _ (by decide)
  have h2 : template_id % 25 < 25 := Int.emod_lt_of_pos _ (by decide)
  unfold individual_base_price
  omega

/-- Claim C8: every pricing rule of the engine and of the orchestrator is a
pure function (two applications to the same input are equal) and its output
is never negative. -/
theorem pricing_rules_deterministic_nonneg :
    (∀ id : Int, individual_base_price id = individual_base_price id ∧
      0 ≤ individual_base_price id) ∧
    (∀ c : String, bundle_price c = bundle_price c ∧ 0 ≤ bundle_price c) ∧
    0 ≤ vault_amount ∧
    (∀ interval amount, subscription_amounts interval = some amount → 0 ≤ amount) ∧
    (∀ ta ∈ enterprise_price_tiers, 0 ≤ ta.2) ∧
    (∀ category : String,
      calculate_price_tier category = calculate_price_tier category ∧
      0 < (calculate_price_tier category).individual ∧
      0 < (calculate_price_tier category).bundle ∧
      0 < (calculate_price_tier category).enterprise) := by
  refine ⟨?_, ?_, by decide, ?_, by decide, ?_⟩
  · intro id
    have h1 : 0 ≤ id % 25 := Int.emod_nonneg _ (by decide)
    exact ⟨rfl, by unfold individual_base_price; omega⟩
  · intro c
    refine ⟨rfl, ?_⟩
    unfold bundle_price
    omega
  · intro interval amount h
    unfold subscription_amounts at h
    split_ifs at h <;> injection h with h2 <;> omega
  · intro category
    refine ⟨rfl, ?_⟩
    unfold calculate_price_tier
    split_ifs <;> exact ⟨by decide, by decide, by decide⟩

/-- Witness for C8 at concrete inputs: the "monthly" subscription amount and
the "starter" enterprise tier. -/
theorem pricing_rules_witness :
    subscription_amounts "monthly" = some 47 ∧ (0 : Int) ≤ 47 ∧
    ("starter", (1997 : Int)) ∈ enterprise_price_tiers ∧ (0 : Int) ≤ 1997 :=
  ⟨rfl, pricing_rules_deterministic_nonneg.2.2.2.1 "monthly" 47 rfl, by decide,
   pricing_rules_deterministic_nonneg.2.2.2.2.1 ("starter", (1997 : Int)) (by decide)⟩

/-! ## Per-item and vault provisioning claims -/

/-- A collaborator that always succeeds, returning constant identifiers. -/
def okApi : StripeApi :=
  { productCreate := fun _ => Except.ok ⟨"prod_123"⟩,
    priceCreate := fun _ => Except.ok ⟨"price_123"⟩ }

/-- Claim C5: for every id in [1, 487], the per-item provisioning step prices
the item at `25 + (id mod 25)`, computes the category via the category
mapper, attaches metadata with the id, category and tier, performs exactly
the product-creation and price-creation calls with that metadata and price,
and records the returned external identifiers in the result. -/
theorem individual_provisioning_spec (api : StripeApi) (id : Int)
    (h1 : 1 ≤ id) (h2 : id ≤ 487) (v : ProductObj) (w : PriceObj)
    (hv : api.productCreate (individualProductParams id) = Except.ok v)
    (hw : api.priceCreate (individualPriceParams id v.id) = Except.ok w)
    (s : List StripeCall) :
    create_individual_template_product api id s =
      (Except.ok { product_id := v.id, price_id := w.id, template_id := id,
                   amount := individual_base_price id,
                   stripe_url := "https://buy.stripe.com/test_" ++ w.id },
       s ++ [StripeCall.product (individualProductParams id),
             StripeCall.price (individualPriceParams id v.id)]) ∧
    individual_base_price id = 25 + id % 25 ∧
    (individualProductParams id).metadata =
      [("template_id", MetaVal.int id),
       ("category", MetaVal.str (get_category_for_template id)),
       ("type", MetaVal.str "individual_template")] ∧
    (individualPriceParams id v.id).unit_amount = individual_base_price id * 100 := by
  refine ⟨?_, rfl, rfl, rfl⟩
  simp [create_individual_template_product, callProduct, callPrice, hv, hw]

/-- Witness for C5 at the concrete id 42 with the always-succeeding
collaborator. -/
theorem individual_provisioning_witness :
    (1 : Int) ≤ 42 ∧ (42 : Int) ≤ 487 ∧
    okApi.productCreate (individualProductParams 42) = Except.ok ⟨"prod_123"⟩ ∧
    okApi.priceCreate (individualPriceParams 42 "prod_123") = Except.ok ⟨"price_123"⟩ ∧
    (create_individual_template_product okApi 42 [] =
      (Except.ok { product_id := "prod_123", price_id := "price_123",
                   template_id := 42, amount := individual_base_price 42,
                   stripe_url := "https://buy.stripe.com/test_" ++ "price_123" },
       [] ++ [StripeCall.product (individualProductParams 42),
              StripeCall.price (individualPriceParams 42 "prod_123")]) ∧
     individual_base_price 42 = 25 + 42 % 25 ∧
     (individualProductParams 42).metadata =
       [("template_id", MetaVal.int 42),
        ("category", MetaVal.str (get_category_for_template 42)),
        ("type", MetaVal.str "individual_template")] ∧
     (individualPriceParams 42 "prod_123").unit_amount =
       individual_base_price 42 * 100) :=
  ⟨by decide, by decide, rfl, rfl,
   individual_provisioning_spec okApi 42 (by decide) (by decide)
     ⟨"prod_123"⟩ ⟨"price_123"⟩ rfl rfl []⟩

/-- Claim C7: the vault license step always produces a record with amount
exactly 997 (unit amount 99700 cents), for every collaborator, every prior
trace (hence every invocation count), and with no dependence on any item
id. -/
theorem vault_fixed_price_spec (api : StripeApi) (v : ProductObj) (w : PriceObj)
    (hv : api.productCreate vaultProductParams = Except.ok v)
    (hw : api.priceCreate (vaultPriceParams v.id) = Except.ok w)
    (s : List StripeCall) :
    create_vault_license_product api s =
      (Except.ok { product_id := v.id, price_id := w.id, amount := 997,
                   template_count := 487,
                   includes := ["all_templates", "lifetime_updates",
                                "consulting_sessions"] },
       s ++ [StripeCall.product vaultProductParams,
             StripeCall.price (vaultPriceParams v.id)]) ∧
    (vaultPriceParams v.id).unit_amount = 99700 := by
  refine ⟨?_, rfl⟩
  simp [create_vault_license_product, callProduct, callPrice, hv, hw, vault_amount]

/-- Witness for C7 with the always-succeeding collaborator on the empty
trace. -/
theorem vault_fixed_price_witness :
    okApi.productCreate vaultProductParams = Except.ok ⟨"prod_123"⟩ ∧
    okApi.priceCreate (vaultPriceParams "prod_123") = Except.ok ⟨"price_123"⟩ ∧
    (create_vault_license_product okApi [] =
      (Except.ok { product_id := "prod_123", price_id := "price_123",
                   amount := 997, template_count := 487,
                   includes := ["all_templates", "lifetime_updates",
                                "consulting_sessions"] },
       [] ++ [StripeCall.product vaultProductParams,
              StripeCall.price (vaultPriceParams "prod_123")]) ∧
     (vaultPriceParams "prod_123").unit_amount = 99700) :=
  ⟨rfl, rfl,
   vault_fixed_price_spec okApi ⟨"prod_123"⟩ ⟨"price_123"⟩ rfl rfl []⟩

/-! ## Whole-catalog claims -/

lemma template_ids_length : template_ids.length = 487 := by
  simp [template_ids]

/-- Claim C3: with an always-succeeding collaborator, catalog generation over
the 487-item inventory returns exactly 487 individual records, 10 bundle
records, 2 subscription records, 1 enterprise record and a vault license,
in exactly the declared order (ids 1..487 and the declared category and
interval lists), with no reordering and no deduplication. -/
theorem catalog_generation_counts_order (api : StripeApi)
    (hp : ∀ p, ∃ v, api.productCreate p = Except.ok v)
    (hq : ∀ p, ∃ v, api.priceCreate p = Except.ok v)
    (s : List StripeCall) :
    ∃ r t, create_all_stripe_products api s = (Except.ok r, s ++ t) ∧
      r.individual_templates.length = 487 ∧
      r.individual_templates.map IndividualRecord.template_id = template_ids ∧
      r.bundles.length = 10 ∧
      r.bundles.map BundleRecord.category = categories ∧
      r.subscriptions.length = 2 ∧
      r.subscriptions.map SubscriptionRecord.interval = ["monthly", "annual"] ∧
      r.enterprise.length = 1 ∧
      ∃ vr, r.vault_license = some vr := by
  obtain ⟨r, t, e, m1, m2, m3, m4, m5, m6, m7, ⟨vr, hvr, _⟩, m9⟩ :=
    create_all_ok_spec api hp hq s
  refine ⟨r, t, e, ?_, m1, ?_, m3, ?_, m5, m7, ⟨vr, hvr⟩⟩
  · have h := congrArg List.length m1
    simpa [template_ids_length] using h
  · have h := congrArg List.length m3
    simpa using h
  · have h := congrArg List.length m5
    simpa using h

/-- Witness for C3: the always-succeeding collaborator on the empty trace. -/
theorem catalog_generation_witness :
    (∀ p, ∃ v, okApi.productCreate p = Except.ok v) ∧
    (∀ p, ∃ v, okApi.priceCreate p = Except.ok v) ∧
    ∃ r t, create_all_stripe_products okApi [] = (Except.ok r, [] ++ t) ∧
      r.individual_templates.length = 487 ∧
      r.individual_templates.map IndividualRecord.template_id = template_ids ∧
      r.bundles.length = 10 ∧
      r.bundles.map BundleRecord.category = categories ∧
      r.subscriptions.length = 2 ∧
      r.subscriptions.map SubscriptionRecord.interval = ["monthly", "annual"] ∧
      r.enterprise.length = 1 ∧
      ∃ vr, r.vault_license = some vr :=
  ⟨fun _ => ⟨⟨"prod_123"⟩, rfl⟩, fun _ => ⟨⟨"price_123"⟩, rfl⟩,
   catalog_generation_counts_order okApi
     (fun _ => ⟨⟨"prod_123"⟩, rfl⟩) (fun _ => ⟨⟨"price_123"⟩, rfl⟩) []⟩

set_option maxRecDepth 8000 in
/-- Claim C6: every bundle is priced by `199 + 10 * len(category)`, and during
a full catalog run the collaborator receives exactly one product-creation
call per declared tier entry: one per bundle category (10 in total), one for
the vault license, one per subscription interval (2), and one for the
enterprise product — not one per inventory item (the per-item tier accounts
for exactly 487 product creations). -/
theorem tier_provisioning_call_counts (api : StripeApi)
    (hp : ∀ p, ∃ v, api.productCreate p = Except.ok v)
    (hq : ∀ p, ∃ v, api.priceCreate p = Except.ok v)
    (s : List StripeCall) :
    (∀ c : String, bundle_price c = 199 + 10 * (c.length : Int)) ∧
    ∃ r t, create_all_stripe_products api s = (Except.ok r, s ++ t) ∧
      r.bundles.map BundleRecord.amount = categories.map bundle_price ∧
      (t.map callKind).count "product:bundle" = categories.length ∧
      categories.length = 10 ∧
      (t.map callKind).count "product:vault_license" = 1 ∧
      (t.map callKind).count "product:subscription" = 2 ∧
      (t.map callKind).count "product:enterprise" = 1 ∧
      (t.map callKind).count "product:individual_template" = 487 := by
  refine ⟨fun c => by unfold bundle_price; ring, ?_⟩
  obtain ⟨r, t, e, _, _, _, m4, _, _, _, _, m9⟩ := create_all_ok_spec api hp hq s
  refine ⟨r, t, e, m4, ?_, rfl, ?_, ?_, ?_, ?_⟩
  all_goals rw [m9]
  all_goals decide

/-- Witness for C6: the always-succeeding collaborator on the empty trace. -/
theorem tier_provisioning_witness :
    (∀ p, ∃ v, okApi.productCreate p = Except.ok v) ∧
    (∀ p, ∃ v, okApi.priceCreate p = Except.ok v) ∧
    ((∀ c : String, bundle_price c = 199 + 10 * (c.length : Int)) ∧
     ∃ r t, create_all_stripe_products okApi [] = (Except.ok r, [] ++ t) ∧
       r.bundles.map BundleRecord.amount = categories.map bundle_price ∧
       (t.map callKind).count "product:bundle" = categories.length ∧
       categories.length = 10 ∧
       (t.map callKind).count "product:vault_license" = 1 ∧
       (t.map callKind).count "product:subscription" = 2 ∧
       (t.map callKind).count "product:enterprise" = 1 ∧
       (t.map callKind).count "product:individual_template" = 487) :=
  ⟨fun _ => ⟨⟨"prod_123"⟩, rfl⟩, fun _ => ⟨⟨"price_123"⟩, rfl⟩,
   tier_provisioning_call_counts okApi
     (fun _ => ⟨⟨"prod_123"⟩, rfl⟩) (fun _ => ⟨⟨"price_123"⟩, rfl⟩) []⟩

/-! ## Failure behaviour of the catalog generator -/

/-- A collaborator that fails on exactly one designated entry — the product
creation of template id 1 (name "Business Template #001") — and succeeds on
every other call. -/
def failApi : StripeApi :=
  { productCreate := fun p =>
      if p.name = "Business Template #001" then Except.error "boom"
      else Except.ok ⟨"prod_" ++ p.name⟩,
    priceCreate := fun p => Except.ok ⟨"price_" ++ p.product⟩ }

/-- Claim C2 counterexample: with a provisioner that fails on exactly one
designated entry (template id 1), `create_all_stripe_products` does NOT
return the other 486 records plus an error value — it propagates the single
exception, returns no records at all, and stops after the one failing call
(the trace holds exactly that one call). -/
theorem catalog_failure_aborts_counterexample :
    create_all_stripe_products failApi [] =
      (Except.error (EngineError.stripe "boom"),
       [StripeCall.product (individualProductParams 1)]) := rfl

/-- Claim C2 (amended): if the provisioner's product creation fails on the
entry with id `k` in [1, 487] and succeeds on all entries before it, the
generator propagates exactly that one exception: the run produces an error,
so no records — including the previously successful ones — are returned to
the caller. -/
theorem catalog_failure_propagates (api : StripeApi) (k : Int) (msg : String)
    (hk1 : 1 ≤ k) (hk2 : k ≤ 487)
    (hfailk : api.productCreate (individualProductParams k) = Except.error msg)
    (hok : ∀ id : Int, 1 ≤ id → id < k →
      (∃ v, api.productCreate (individualProductParams id) = Except.ok v) ∧
      (∀ pid, ∃ w, api.priceCreate (individualPriceParams id pid) = Except.ok w))
    (s : List StripeCall) :
    ∃ t, create_all_stripe_products api s =
      (Except.error (EngineError.stripe msg), t) := by
  obtain ⟨n, hk⟩ : ∃ n : Nat, (n : Int) = k := ⟨k.toNat, by omega⟩
  have hsplitNat : List.range' 1 487
      = List.range' 1 (n - 1) ++ (n :: List.range' (n + 1) (487 - n)) := by
    have e0 : (488 - n) + (n - 1) = 487 := by omega
    have e1 : 1 + (n - 1) = n := by omega
    have e2 : 488 - n = (487 - n) + 1 := by omega
    calc List.range' 1 487
        = List.range' 1 ((488 - n) + (n - 1)) := by rw [e0]
      _ = List.range' 1 (n - 1) ++ List.range' (1 + (n - 1)) (488 - n) :=
          (List.range'_append_1 1 (n - 1) (488 - n)).symm
      _ = List.range' 1 (n - 1) ++ List.range' n ((487 - n) + 1) := by rw [e1, e2]
      _ = List.range' 1 (n - 1) ++ (n :: List.range' (n + 1) (487 - n)) := by
          rw [List.range'_succ]
  have hsplit : template_ids
      = (List.range' 1 (n - 1)).map Int.ofNat ++
        (k :: (List.range' (n + 1) (487 - n)).map Int.ofNat) := by
    rw [template_ids, hsplitNat, List.map_append, List.map_cons]
    rw [show Int.ofNat n = k from hk]
  have hok' : ∀ x ∈ (List.range' 1 (n - 1)).map Int.ofNat, ∀ s', ∃ b t,
      create_individual_template_product api x s' = (Except.ok b, t) := by
    intro x hx s'
    simp only [List.mem_map, List.mem_range'_1] at hx
    obtain ⟨m, ⟨hm1, hm2⟩, rfl⟩ := hx
    have hb1 : 1 ≤ (m : Int) := by omega
    have hb2 : (m : Int) < k := by omega
    obtain ⟨⟨v, hv⟩, hwA⟩ := hok (m : Int) hb1 hb2
    obtain ⟨w, hw⟩ := hwA v.id
    refine ⟨{ product_id := v.id, price_id := w.id, template_id := (m : Int),
              amount := individual_base_price (m : Int),
              stripe_url := "https://buy.stripe.com/test_" ++ w.id },
            s' ++ [StripeCall.product (individualProductParams (m : Int)),
                   StripeCall.price (individualPriceParams (m : Int) v.id)], ?_⟩
    simp [create_individual_template_product, callProduct, callPrice, hv, hw]
  have hfail' : ∀ s', ∃ t, create_individual_template_product api k s'
      = (Except.error (EngineError.stripe msg), t) := by
    intro s'
    refine ⟨s' ++ [StripeCall.product (individualProductParams k)], ?_⟩
    simp [create_individual_template_product, callProduct, hfailk]
  obtain ⟨t, ht⟩ := mapME_error (create_individual_template_product api)
    (EngineError.stripe msg) ((List.range' 1 (n - 1)).map Int.ofNat) k
    ((List.range' (n + 1) (487 - n)).map Int.ofNat) hok' hfail' s
  refine ⟨t, ?_⟩
  simp only [create_all_stripe_products]
  rw [hsplit]
  exact EngineM.bind_error ht

/-- Witness for the amended C2: the designated failing entry is id 1 with the
concrete collaborator `failApi`. -/
theorem catalog_failure_witness :
    (1 : Int) ≤ 1 ∧ (1 : Int) ≤ 487 ∧
    failApi.productCreate (individualProductParams 1) = Except.error "boom" ∧
    ∃ t, create_all_stripe_products failApi [] =
      (Except.error (EngineError.stripe "boom"), t) :=
  ⟨by decide, by decide, rfl,
   catalog_failure_propagates failApi 1 "boom" (by decide) (by decide) rfl
     (fun id hid1 hid2 => absurd hid2 (by omega)) []⟩
